import Mathlib

/-!
Shallow embedding of `src/Orbit.js` (orbit-core): connection lifecycle,
channel join/leave with join deduplication, the message/file posting
pipeline, and peer polling.

Modelling choices, kept uniform across the file:
JS objects used as string-keyed maps (`this._channels`, `this._joiningQueue`,
`source.meta`) are association lists; promises are identifiers paired with an
explicit promise table in the state; `setInterval` timers are identifiers
together with the list of currently scheduled intervals; asynchronous
completions of provider calls (`orbitdb.log`, `feed.close`, `ipfs.add`) are
explicit step functions or parameters carrying the provider's outcome.
-/

deriving instance DecidableEq for Except

namespace OrbitCore

/-- First-match association-list lookup, modelling JS property read `m[k]`. -/
def lookupAssoc {κ α : Type} [DecidableEq κ] : List (κ × α) → κ → Option α
  | [], _ => none
  | (k2, v) :: rest, k => if k2 = k then some v else lookupAssoc rest k

/-- Remove every binding of key `k`, modelling JS `delete m[k]`. -/
def eraseKey {κ α : Type} [DecidableEq κ] : List (κ × α) → κ → List (κ × α)
  | [], _ => []
  | (k2, v) :: rest, k => if k2 = k then eraseKey rest k else (k2, v) :: eraseKey rest k

/-- JS property assignment `m[k] = v`. -/
def setAssoc {κ α : Type} [DecidableEq κ] (m : List (κ × α)) (k : κ) (v : α) : List (κ × α) :=
  (k, v) :: eraseKey m k

/-- One-key step of `Object.assign`: overwrite the binding in place when the
key is already present, else append it (JS object key order). -/
def setKey {α : Type} : List (String × α) → String → α → List (String × α)
  | [], k, v => [(k, v)]
  | (k2, v2) :: rest, k, v =>
    if k2 = k then (k2, v) :: rest else (k2, v2) :: setKey rest k v

/-- `Object.assign(target, src)`: fold the source bindings into the target. -/
def objAssign {α : Type} (m : List (String × α)) : List (String × α) → List (String × α)
  | [] => m
  | kv :: rest => objAssign (setKey m kv.1 kv.2) rest

/-- JS `String.prototype.split(sep)` on a character list; `split` of the empty
string is `[""]`, as in JS. -/
def splitOnChar (sep : Char) : List Char → List (List Char)
  | [] => [[]]
  | c :: rest =>
    let r := splitOnChar sep rest
    if c = sep then [] :: r
    else
      match r with
      | [] => [[c]]
      | seg :: segs => (c :: seg) :: segs

/-- JS `s.split('/').pop()`: the trailing path segment of `s`. -/
def lastSegment (s : String) : String :=
  String.mk ((splitOnChar '/' s.data).getLastD [])

/-- JS truthiness of an optional string field (`undefined` and `""` are falsy). -/
def strTruthy (o : Option String) : Bool :=
  o.getD "" ≠ ""

/-- JS `message.substring(0, 2048)`: the first 2048 characters. -/
def substring2048 (m : String) : String :=
  String.mk (m.data.take 2048)

/-- The user profile built by `connect`:
`{ name: this._options.id, location: 'Earth', image: null }`. -/
structure UserProfile where
  name : Option String
  location : String
  image : Option Nat
deriving DecidableEq

/-- Modelled from the spec: `Channel.js` is not under `src/`; per the spec a
Channel wraps the channel name and the feed handle obtained at join
(`new Channel(this, channelName, feed)`).  `id` models JS object identity so
that "same Channel instance" is expressible; `feed` is an optional feed-handle
identifier (`Option` keeps the `feed || null` branch of `_getChannelFeed`). -/
structure Channel where
  id : Nat
  name : String
  feed : Option Nat
deriving DecidableEq

/-- Values stored in a Post's `meta` object. -/
inductive MetaVal where
  | str (s : String)
  | nat (n : Nat)
  | prof (p : Option UserProfile)
deriving DecidableEq

/-- JS truthiness of a meta value (`0` and `""` are falsy; objects are truthy). -/
def truthyMeta : MetaVal → Bool
  | .str s => s ≠ ""
  | .nat n => n ≠ 0
  | .prof _ => true

/-- The unit appended to a channel feed: `{ content, meta }`. -/
structure Post where
  content : String
  meta : List (String × MetaVal)
deriving DecidableEq

/-- Notifications emitted on `this.events`. -/
inductive OrbitEvent where
  | connected (profile : UserProfile)
  | disconnected
  | joined (name : String) (ch : Channel)
  | left (name : String)
  | peers (ps : List String)
deriving DecidableEq

/-- State of a promise stored in `this._joiningQueue`.  `rejectedTypeError`
models the executor throwing synchronously (reading `.log` of `null` when
`this._orbitdb` is not set), which rejects the newly constructed promise. -/
inductive PromiseState where
  | pending
  | fulfilled (ch : Channel)
  | rejectedTypeError
deriving DecidableEq

/-- The mutable fields of an `Orbit` instance, plus the bookkeeping needed to
observe provider calls: `openCalls` are the outstanding `orbitdb.log` requests
(name, promise), `openCallCount` counts every log-open ever issued,
`activeIntervals` are the `setInterval` handles not yet cleared, `events` is
the emission log, and `nextId` supplies fresh promise/channel/timer ids. -/
structure OrbitState where
  orbitdb : Bool
  connecting : Bool
  optionsId : Option String
  userProfile : Option UserProfile
  channels : List (String × Channel)
  peersList : List String
  pollPeersTimer : Option Nat
  joiningQueue : List (String × Nat)
  promises : List (Nat × PromiseState)
  openCalls : List (String × Nat)
  openCallCount : Nat
  activeIntervals : List Nat
  nextId : Nat
  events : List OrbitEvent
deriving DecidableEq

/-- The constructor (`new Orbit(ipfs, options)`): everything empty or null. -/
def Orbit.initState (optionsId : Option String) : OrbitState :=
  { orbitdb := false, connecting := false, optionsId := optionsId,
    userProfile := none, channels := [], peersList := [],
    pollPeersTimer := none, joiningQueue := [], promises := [],
    openCalls := [], openCallCount := 0, activeIntervals := [],
    nextId := 0, events := [] }

/-- The `username` argument of `connect`: absent, a string, or a truthy
non-string value (e.g. a number or object), which fails the `typeof` check.
Falsy non-strings (`0`, `false`, `null`) behave like `undef` since the code
guards with `if (username)`. -/
inductive Username where
  | undef
  | str (s : String)
  | truthyNonString
deriving DecidableEq

inductive ConnectResult where
  | ok
  | errAlreadyConnected
  | errAlreadyConnecting
  | errUsernameNotString
  | errProvider
deriving DecidableEq

/-- `_startPollingForPeers`: start a new interval only when
`this._pollPeersTimer` is falsy (stale cleared handles are still truthy). -/
def Orbit.startPollingForPeers (s : OrbitState) : OrbitState :=
  match s.pollPeersTimer with
  | some _ => s
  | none =>
    let t := s.nextId
    { s with pollPeersTimer := some t,
             activeIntervals := t :: s.activeIntervals,
             nextId := t + 1 }

/-- `connect(username)`.  `providerOk` carries the outcome of the awaited
`OrbitDB.createInstance`; on provider failure the error propagates with the
state left as it was at the await point (still Connecting). -/
def Orbit.connect (s : OrbitState) (u : Username) (providerOk : Bool) :
    OrbitState × ConnectResult :=
  if s.orbitdb then (s, .errAlreadyConnected)
  else if s.connecting then (s, .errAlreadyConnecting)
  else
    let s1 : OrbitState := { s with connecting := true }
    match u with
    | .truthyNonString => (s1, .errUsernameNotString)
    | u =>
      let s2 : OrbitState :=
        match u with
        | .str nm => if nm ≠ "" then { s1 with optionsId := some nm } else s1
        | _ => s1
      let profile : UserProfile :=
        { name := s2.optionsId, location := "Earth", image := none }
      let s3 : OrbitState := { s2 with userProfile := some profile }
      if providerOk then
        let s4 : OrbitState := { s3 with orbitdb := true }
        let s5 := Orbit.startPollingForPeers s4
        ({ s5 with events := s5.events ++ [.connected profile] }, .ok)
      else (s3, .errProvider)

/-- `disconnect()`: no-op when not connected; otherwise resets the fields,
calls `clearInterval` on the poll timer WITHOUT nulling `_pollPeersTimer`,
and emits `disconnected`.  `_joiningQueue` is left untouched. -/
def Orbit.disconnect (s : OrbitState) : OrbitState :=
  if s.orbitdb then
    let s1 : OrbitState :=
      { s with connecting := false, orbitdb := false,
               userProfile := none, channels := [] }
    let s2 : OrbitState :=
      match s1.pollPeersTimer with
      | some t => { s1 with activeIntervals := s1.activeIntervals.filter (fun x => x ≠ t) }
      | none => s1
    { s2 with events := s2.events ++ [.disconnected] }
  else s

/-- What a single `join` call returns to its caller. -/
inductive JoinOutcome where
  | rejectedNoName
  | resolvedExisting (ch : Channel)
  | promise (p : Nat)
deriving DecidableEq

/-- `join(channelName, options)`.  The executor of the memoized promise runs
synchronously: with a live `_orbitdb` it issues the log-open call and leaves
the promise pending until the provider answers; with `_orbitdb === null` the
read `this._orbitdb.log` throws, rejecting the promise, and the queue entry
is never deleted (deletion happens only in the fulfilment callback). -/
def Orbit.join (s : OrbitState) (channelName : String) : OrbitState × JoinOutcome :=
  if channelName = "" then (s, .rejectedNoName)
  else
    match lookupAssoc s.channels channelName with
    | some ch => (s, .resolvedExisting ch)
    | none =>
      match lookupAssoc s.joiningQueue channelName with
      | some p => (s, .promise p)
      | none =>
        let p := s.nextId
        if s.orbitdb then
          ({ s with joiningQueue := setAssoc s.joiningQueue channelName p,
                    promises := setAssoc s.promises p PromiseState.pending,
                    openCalls := s.openCalls ++ [(channelName, p)],
                    openCallCount := s.openCallCount + 1,
                    nextId := p + 1 }, .promise p)
        else
          ({ s with joiningQueue := setAssoc s.joiningQueue channelName p,
                    promises := setAssoc s.promises p PromiseState.rejectedTypeError,
                    nextId := p + 1 }, .promise p)

/-- The provider fulfils an outstanding log-open with feed handle `feed`: the
`.then` callback registers the Channel, emits `joined`, deletes the queue
entry and resolves the memoized promise with the Channel. -/
def Orbit.fulfillOpen (s : OrbitState) (channelName : String) (p : Nat) (feed : Nat) :
    OrbitState :=
  if (channelName, p) ∈ s.openCalls then
    let ch : Channel := { id := s.nextId, name := channelName, feed := some feed }
    { s with channels := setAssoc s.channels channelName ch,
             events := s.events ++ [.joined channelName ch],
             joiningQueue := eraseKey s.joiningQueue channelName,
             promises := setAssoc s.promises p (PromiseState.fulfilled ch),
             openCalls := s.openCalls.filter (fun e => e ≠ (channelName, p)),
             nextId := s.nextId + 1 }
  else s

/-- The provider rejects an outstanding log-open: the `.then` has no rejection
handler, so nothing in the Orbit state changes and the memoized promise stays
pending; the open call is merely consumed. -/
def Orbit.rejectOpen (s : OrbitState) (channelName : String) (p : Nat) : OrbitState :=
  if (channelName, p) ∈ s.openCalls then
    { s with openCalls := s.openCalls.filter (fun e => e ≠ (channelName, p)) }
  else s

/-- `n` successive `join` calls for the same name, each issued before any
provider answer arrives (the single-threaded interleaving of N concurrent
callers); returns the final state and every caller's outcome. -/
def Orbit.joinTimes (s : OrbitState) (channelName : String) : Nat → OrbitState × List JoinOutcome
  | 0 => (s, [])
  | n + 1 =>
    let r1 := Orbit.join s channelName
    let r2 := Orbit.joinTimes r1.1 channelName n
    (r2.1, r1.2 :: r2.2)

inductive LeaveResult where
  | ok
  | errClose
deriving DecidableEq

/-- `leave(channelName)`.  `closeOk` carries the outcome of the awaited
`channel.feed.close()`: when it rejects, the async function rejects right
there, so the registry entry survives and no `left` event is emitted; when no
channel exists the body is skipped but `left` is still emitted. -/
def Orbit.leave (s : OrbitState) (channelName : String) (closeOk : Bool) :
    OrbitState × LeaveResult :=
  match lookupAssoc s.channels channelName with
  | some _ =>
    if closeOk then
      ({ s with channels := eraseKey s.channels channelName,
                events := s.events ++ [.left channelName] }, .ok)
    else (s, .errClose)
  | none =>
    ({ s with events := s.events ++ [.left channelName] }, .ok)

/-- Failures that `_getChannelFeed` can raise.  `typeErrorUndefined` is the
TypeError raised by reading `.feed` of `undefined` when no channel is
registered under the name; `haveNotJoined` is the explicit
`Have not joined #name` error, reachable only when a registered channel has a
falsy feed handle. -/
inductive FeedErr where
  | channelNotSpecified
  | typeErrorUndefined
  | haveNotJoined
deriving DecidableEq

/-- `_getChannelFeed(channelName)`. -/
def Orbit.getChannelFeed (s : OrbitState) (channelName : String) : Except FeedErr Nat :=
  if channelName = "" then .error .channelNotSpecified
  else
    match lookupAssoc s.channels channelName with
    | none => .error .typeErrorUndefined
    | some ch =>
      match ch.feed with
      | none => .error .haveNotJoined
      | some f => .ok f

/-- `_postMessage(channelName, data)`: resolve the feed and append; the model
returns the feed handle and the appended post. -/
def Orbit.postMessage (s : OrbitState) (channelName : String) (data : Post) :
    Except FeedErr (Nat × Post) :=
  match Orbit.getChannelFeed s channelName with
  | .ok f => .ok (f, data)
  | .error e => .error e

inductive SendErr where
  | channelMustBeSpecified
  | emptyMessage
  | noUserProfile
  | feed (e : FeedErr)
deriving DecidableEq

/-- `send(channelName, message)`; `ts` carries `new Date().getTime()`. -/
def Orbit.send (s : OrbitState) (channelName message : String) (ts : Nat) :
    Except SendErr (Nat × Post) :=
  if channelName = "" then .error .channelMustBeSpecified
  else if message = "" then .error .emptyMessage
  else
    match s.userProfile with
    | none => .error .noUserProfile
    | some up =>
      let data : Post :=
        { content := substring2048 message,
          meta := [("from", MetaVal.prof (some up)),
                   ("type", MetaVal.str "text"),
                   ("ts", MetaVal.nat ts)] }
      match Orbit.postMessage s channelName data with
      | .ok r => .ok r
      | .error e => .error (.feed e)

/-- The `source` argument of `addFile`. -/
structure FileSource where
  filename : Option String
  directory : Option String
  buffer : Option (List Nat)
  meta : Option (List (String × MetaVal))
deriving DecidableEq

/-- The local `name` in `addFile`: the trailing segment of the directory when
one is given (truthy), else of the filename. -/
def FileSource.expectedName (src : FileSource) : String :=
  if strTruthy src.directory then lastSegment (src.directory.getD "")
  else lastSegment (src.filename.getD "")

inductive AddFileErr where
  | missingSource
  | feed (e : FeedErr)
deriving DecidableEq

/-- The `data` post built by the body of `addFile` (lines between the source
validation and the final `_postMessage`).  `providerHash` carries
`result.cid` of the awaited `ipfs.add`; `providerPath` carries `result.path`
of the path-based `ipfs.add` (both `_addToIpfsGo` branches pass `name` as the
`filename` parameter and compare it with `result.path.split('/').pop()`; they
differ only in which path is sent to the provider, which the parameter
abstracts).  The buffer branch (`_addToIpfsJs`) never marks a directory. -/
def Orbit.addFileData (up : Option UserProfile) (src : FileSource)
    (providerHash providerPath : String) (ts : Nat) : Post :=
  let isBuffer := src.buffer.isSome && strTruthy src.filename
  let name := src.expectedName
  let size : MetaVal :=
    match src.meta with
    | none => MetaVal.nat 0
    | some m =>
      match lookupAssoc m "size" with
      | none => MetaVal.nat 0
      | some v => if truthyMeta v then v else MetaVal.nat 0
  let isDirectory := if isBuffer then false else lastSegment providerPath ≠ name
  { content := providerHash,
    meta := objAssign (objAssign
      [("from", MetaVal.prof up),
       ("type", MetaVal.str (if isDirectory then "directory" else "file")),
       ("ts", MetaVal.nat ts)]
      [("size", size), ("name", MetaVal.str name)])
      (src.meta.getD []) }

/-- `addFile(channelName, source)`: validate the source, build the post from
the provider's upload result, then append it through `_postMessage`. -/
def Orbit.addFile (s : OrbitState) (channelName : String) (src : FileSource)
    (providerHash providerPath : String) (ts : Nat) : Except AddFileErr (Nat × Post) :=
  if !strTruthy src.filename && !strTruthy src.directory then .error .missingSource
  else
    match Orbit.postMessage s channelName
        (Orbit.addFileData s.userProfile src providerHash providerPath ts) with
    | .ok r => .ok r
    | .error e => .error (.feed e)

/-- `_updateSwarmPeers()`: keep the entries with a defined `addr`, mapped to
the address string. -/
def Orbit.updateSwarmPeers (swarm : List (Option String)) : List String :=
  swarm.filterMap id

/-- One firing of the `setInterval` callback of `_startPollingForPeers` for
timer `t`: it runs only while the interval is still scheduled, replaces the
peer set wholesale and emits `peers`. -/
def Orbit.pollTick (s : OrbitState) (t : Nat) (swarm : List (Option String)) : OrbitState :=
  if t ∈ s.activeIntervals then
    let ps := Orbit.updateSwarmPeers swarm
    { s with peersList := ps, events := s.events ++ [.peers ps] }
  else s

/-! ### Association-list lemmas -/

theorem lookupAssoc_eraseKey_ne {κ α : Type} [DecidableEq κ]
    (m : List (κ × α)) (k k2 : κ) (h : k2 ≠ k) :
    lookupAssoc (eraseKey m k) k2 = lookupAssoc m k2 := by
  induction m with
  | nil => rfl
  | cons kv rest ih =>
    rcases kv with ⟨k1, v⟩
    by_cases h1 : k1 = k
    · subst h1
      rw [show eraseKey ((k1, v) :: rest) k1 = eraseKey rest k1 from by
            simp [eraseKey], ih]
      simp only [lookupAssoc]
      rw [if_neg (fun hh : k1 = k2 => h hh.symm)]
    · rw [show eraseKey ((k1, v) :: rest) k = (k1, v) :: eraseKey rest k from by
            simp [eraseKey, h1]]
      by_cases h2 : k1 = k2 <;> simp [lookupAssoc, h2, ih]

theorem lookupAssoc_setAssoc_self {κ α : Type} [DecidableEq κ]
    (m : List (κ × α)) (k : κ) (v : α) :
    lookupAssoc (setAssoc m k v) k = some v := by
  simp [setAssoc, lookupAssoc]

theorem lookupAssoc_setAssoc_ne {κ α : Type} [DecidableEq κ]
    (m : List (κ × α)) (k k2 : κ) (v : α) (h : k2 ≠ k) :
    lookupAssoc (setAssoc m k v) k2 = lookupAssoc m k2 := by
  simp only [setAssoc, lookupAssoc]
  rw [if_neg (fun hh : k = k2 => h hh.symm)]
  exact lookupAssoc_eraseKey_ne m k k2 h

theorem lookupAssoc_setKey_ne {α : Type} (m : List (String × α)) (k1 k : String) (v : α)
    (h : k ≠ k1) : lookupAssoc (setKey m k1 v) k = lookupAssoc m k := by
  induction m with
  | nil =>
    simp only [setKey, lookupAssoc]
    rw [if_neg (fun hh : k1 = k => h hh.symm)]
  | cons kv rest ih =>
    rcases kv with ⟨k2, v2⟩
    by_cases h2 : k2 = k1
    · simp only [setKey, if_pos h2, lookupAssoc]
      rw [if_neg (fun hh : k2 = k => h (hh.symm.trans h2)),
          if_neg (fun hh : k2 = k => h (hh.symm.trans h2))]
    · simp only [setKey, if_neg h2, lookupAssoc]
      by_cases h3 : k2 = k <;> simp [h3, ih]

theorem lookupAssoc_objAssign_none {α : Type} (extra : List (String × α)) (k : String)
    (h : lookupAssoc extra k = none) (m : List (String × α)) :
    lookupAssoc (objAssign m extra) k = lookupAssoc m k := by
  induction extra generalizing m with
  | nil => rfl
  | cons kv rest ih =>
    rcases kv with ⟨k1, v⟩
    simp only [lookupAssoc] at h
    by_cases h1 : k1 = k
    · rw [if_pos h1] at h; exact absurd h (by simp)
    · rw [if_neg h1] at h
      simp only [objAssign]
      rw [ih h (setKey m k1 v)]
      exact lookupAssoc_setKey_ne m k1 k v (fun hh => h1 hh.symm)

/-! ### Small facts about `join` reused across several proofs -/

/-- A `join` when a live Channel is registered resolves immediately with it. -/
theorem join_existing (s : OrbitState) (c : String) (ch : Channel)
    (hc : c ≠ "") (h : lookupAssoc s.channels c = some ch) :
    Orbit.join s c = (s, JoinOutcome.resolvedExisting ch) := by
  simp [Orbit.join, hc, h]

/-- A `join` while a JoinRequest is pending returns the memoized promise and
leaves the state untouched. -/
theorem join_pending (s : OrbitState) (c : String) (p : Nat)
    (hc : c ≠ "") (hch : lookupAssoc s.channels c = none)
    (hqp : lookupAssoc s.joiningQueue c = some p) :
    Orbit.join s c = (s, JoinOutcome.promise p) := by
  simp [Orbit.join, hc, hch, hqp]

/-- A fresh `join` on a live connection: queue the promise, issue one log-open. -/
theorem join_fresh (s : OrbitState) (c : String)
    (hc : c ≠ "") (hch : lookupAssoc s.channels c = none)
    (hq : lookupAssoc s.joiningQueue c = none) (hdb : s.orbitdb = true) :
    Orbit.join s c =
      ({ s with joiningQueue := setAssoc s.joiningQueue c s.nextId,
                promises := setAssoc s.promises s.nextId PromiseState.pending,
                openCalls := s.openCalls ++ [(c, s.nextId)],
                openCallCount := s.openCallCount + 1,
                nextId := s.nextId + 1 }, JoinOutcome.promise s.nextId) := by
  simp [Orbit.join, hc, hch, hq, hdb]

/-- A fresh `join` while disconnected: the executor throws reading
`this._orbitdb.log`, so the queued promise is born rejected and no log-open
is issued. -/
theorem join_fresh_disconnected (s : OrbitState) (c : String)
    (hc : c ≠ "") (hch : lookupAssoc s.channels c = none)
    (hq : lookupAssoc s.joiningQueue c = none) (hdb : s.orbitdb = false) :
    Orbit.join s c =
      ({ s with joiningQueue := setAssoc s.joiningQueue c s.nextId,
                promises := setAssoc s.promises s.nextId PromiseState.rejectedTypeError,
                nextId := s.nextId + 1 }, JoinOutcome.promise s.nextId) := by
  simp [Orbit.join, hc, hch, hq, hdb]

/-- Iterating `join` from a state it does not change replicates the outcome. -/
theorem joinTimes_of_stable (s : OrbitState) (c : String) (p : Nat)
    (h : Orbit.join s c = (s, JoinOutcome.promise p)) :
    ∀ n, Orbit.joinTimes s c n = (s, List.replicate n (JoinOutcome.promise p)) := by
  intro n
  induction n with
  | zero => simp [Orbit.joinTimes]
  | succ j ih => simp [Orbit.joinTimes, h, ih, List.replicate_succ]

/-! ### Concrete states used by witnesses and counterexamples -/

/-- The profile `connect` builds for option id `"alice"`. -/
def profAlice : UserProfile :=
  { name := some "alice", location := "Earth", image := none }

/-- A fresh instance, as left by the constructor. -/
def st0 : OrbitState := Orbit.initState (some "alice")

/-- A connected session (the state reached by `connect` from `st0`),
with no channel joined. -/
def stConn : OrbitState :=
  { orbitdb := true, connecting := true, optionsId := some "alice",
    userProfile := some profAlice, channels := [], peersList := [],
    pollPeersTimer := some 0, joiningQueue := [], promises := [],
    openCalls := [], openCallCount := 0, activeIntervals := [0], nextId := 1,
    events := [OrbitEvent.connected profAlice] }

/-- The Channel registered for `"c"` in `stJoined`. -/
def chC : Channel := { id := 1, name := "c", feed := some 7 }

/-- A connected session with channel `"c"` joined (feed handle 7). -/
def stJoined : OrbitState :=
  { stConn with channels := [("c", chC)], openCallCount := 1, nextId := 2,
                events := stConn.events ++ [OrbitEvent.joined "c" chC] }

/-- A successful `_postMessage` appends exactly the post it was given. -/
theorem postMessage_ok_post (s : OrbitState) (c : String) (data : Post) (f : Nat) (post : Post)
    (h : Orbit.postMessage s c data = Except.ok (f, post)) : post = data := by
  unfold Orbit.postMessage at h
  split at h
  · injection h with h1
    exact congrArg Prod.snd h1.symm
  · simp at h

/-- A successful `send` posts content truncated by `substring(0, 2048)`. -/
theorem send_ok_shape (s : OrbitState) (c msg : String) (ts : Nat) (f : Nat) (post : Post)
    (h : Orbit.send s c msg ts = Except.ok (f, post)) :
    post.content = substring2048 msg := by
  simp only [Orbit.send] at h
  split at h
  · simp at h
  · split at h
    · simp at h
    · split at h
      · simp at h
      · split at h
        · rename_i r heq
          injection h with h1
          subst h1
          rw [postMessage_ok_post _ _ _ _ _ heq]
        · simp at h

/-- C9: for every channel name and text input accepted by `send`, the appended
Post's content is exactly the first 2048 characters of the input; input of at
most 2048 characters is appended unchanged, and longer input is cut to
exactly 2048 characters. -/
theorem send_truncates (s : OrbitState) (c msg : String) (ts : Nat) (f : Nat) (post : Post)
    (h : Orbit.send s c msg ts = Except.ok (f, post)) :
    post.content = substring2048 msg ∧
    (msg.length ≤ 2048 → post.content = msg) ∧
    (2048 ≤ msg.length → post.content.length = 2048) := by
  have hc := send_ok_shape s c msg ts f post h
  refine ⟨hc, ?_, ?_⟩
  · intro hlen
    rw [hc]
    obtain ⟨d⟩ := msg
    exact congrArg String.mk (List.take_of_length_le hlen)
  · intro hlen
    have hmin : (substring2048 msg).length = min 2048 msg.data.length :=
      List.length_take 2048 msg.data
    rw [hc, hmin]
    exact min_eq_left hlen

/-- The post appended by `send stJoined "c" "hello" 0`. -/
def sendPostHello : Post :=
  { content := "hello",
    meta := [("from", MetaVal.prof (some profAlice)),
             ("type", MetaVal.str "text"),
             ("ts", MetaVal.nat 0)] }

/-- C9 witness: `send` of `"hello"` on a joined channel appends it unchanged. -/
theorem send_truncates_witness :
    sendPostHello.content = substring2048 "hello" ∧
    ("hello".length ≤ 2048 → sendPostHello.content = "hello") ∧
    (2048 ≤ "hello".length → sendPostHello.content.length = 2048) :=
  send_truncates stJoined "c" "hello" 0 7 sendPostHello (by decide)

/-- C4 counterexample: with no live Channel for `"lobby"`, `leave` still emits
a `left` notification (the emit sits outside the `if (channel)` guard). -/
theorem leave_emits_left_without_channel_cex :
    lookupAssoc stConn.channels "lobby" = none ∧
    (Orbit.leave stConn "lobby" true).1.events = stConn.events ++ [OrbitEvent.left "lobby"] := by
  decide

/-- C4 amended: `leave` on a name with no live Channel leaves the registry and
every other component of the state unchanged, succeeds, and emits a `left`
notification unconditionally. -/
theorem leave_no_channel_frame (s : OrbitState) (c : String) (closeOk : Bool)
    (h : lookupAssoc s.channels c = none) :
    Orbit.leave s c closeOk
      = ({ s with events := s.events ++ [OrbitEvent.left c] }, LeaveResult.ok) := by
  simp [Orbit.leave, h]

/-- C4 witness. -/
theorem leave_no_channel_frame_witness :
    Orbit.leave stConn "general" true
      = ({ stConn with events := stConn.events ++ [OrbitEvent.left "general"] },
         LeaveResult.ok) :=
  leave_no_channel_frame stConn "general" true (by decide)

/-- C5 counterexample: when closing the feed handle fails, `leave` fails and
the Channel stays in the registry. -/
theorem leave_close_failure_cex :
    Orbit.leave stJoined "c" false = (stJoined, LeaveResult.errClose) ∧
    lookupAssoc (Orbit.leave stJoined "c" false).1.channels "c" = some chC := by
  decide

/-- C5 amended: when `channel.feed.close()` rejects, `leave` rejects with that
error at the `await`: the Channel is NOT removed from the registry, no `left`
notification is emitted, and the close error IS surfaced to the caller. -/
theorem leave_close_failure_propagates (s : OrbitState) (c : String) (ch : Channel)
    (h : lookupAssoc s.channels c = some ch) :
    Orbit.leave s c false = (s, LeaveResult.errClose) := by
  simp [Orbit.leave, h]

/-- C5 witness. -/
theorem leave_close_failure_propagates_witness :
    Orbit.leave stJoined "c" false = (stJoined, LeaveResult.errClose) :=
  leave_close_failure_propagates stJoined "c" chC (by decide)

/-- C6 counterexample: after `connect` with a truthy non-string username the
instance is left Connecting, and an immediately following `connect` fails
with AlreadyConnecting. -/
theorem connect_invalid_username_cex :
    (Orbit.connect st0 Username.truthyNonString true).1.connecting = true ∧
    (Orbit.connect (Orbit.connect st0 Username.truthyNonString true).1
        Username.undef true).2 = ConnectResult.errAlreadyConnecting := by
  decide

/-- C6 amended: from Disconnected, `connect` with a truthy non-string username
fails with the InvalidArgument error, but `this._connecting` has already been
set, so the state is left Connecting (only that flag changes) and any
immediately following `connect` fails with AlreadyConnecting (the username
check runs after the transition, not before). -/
theorem connect_invalid_username_leaves_connecting (s : OrbitState) (pOk : Bool)
    (u2 : Username) (p2 : Bool) (h1 : s.orbitdb = false) (h2 : s.connecting = false) :
    Orbit.connect s Username.truthyNonString pOk
      = ({ s with connecting := true }, ConnectResult.errUsernameNotString) ∧
    (Orbit.connect { s with connecting := true } u2 p2).2
      = ConnectResult.errAlreadyConnecting := by
  constructor
  · simp [Orbit.connect, h1, h2]
  · simp [Orbit.connect, h1]

/-- C6 witness. -/
theorem connect_invalid_username_leaves_connecting_witness :
    Orbit.connect st0 Username.truthyNonString true
      = ({ st0 with connecting := true }, ConnectResult.errUsernameNotString) ∧
    (Orbit.connect { st0 with connecting := true } Username.undef true).2
      = ConnectResult.errAlreadyConnecting :=
  connect_invalid_username_leaves_connecting st0 true Username.undef true
    (by decide) (by decide)

/-- A plain single-file source (`{filename: "a.txt"}`). -/
def srcA : FileSource :=
  { filename := some "a.txt", directory := none, buffer := none, meta := none }

/-- C7: posting to a non-empty name with no live Channel on a connected
session fails, but with the TypeError from reading `.feed` of `undefined` in
`_getChannelFeed`, not with the dedicated `Have not joined #name` error; the
same holds for `addFile`.  Nothing is appended (the result is an error). -/
theorem post_to_unjoined_channel_type_error :
    lookupAssoc stConn.channels "general" = none ∧
    Orbit.send stConn "general" "hi" 0
      = Except.error (SendErr.feed FeedErr.typeErrorUndefined) ∧
    Orbit.send stConn "general" "hi" 0
      ≠ Except.error (SendErr.feed FeedErr.haveNotJoined) ∧
    Orbit.addFile stConn "general" srcA "QmHash" "a.txt" 0
      = Except.error (AddFileErr.feed FeedErr.typeErrorUndefined) := by
  decide

/-- Reading `type` out of the merged file-post meta object, when the
caller-supplied meta carries no `type` key, yields the computed type. -/
theorem lookupAssoc_fileMeta_type (up : Option UserProfile) (t : String) (ts : Nat)
    (sz nmv : MetaVal) (user : List (String × MetaVal))
    (huser : lookupAssoc user "type" = none) :
    lookupAssoc (objAssign (objAssign
      [("from", MetaVal.prof up), ("type", MetaVal.str t), ("ts", MetaVal.nat ts)]
      [("size", sz), ("name", nmv)]) user) "type" = some (MetaVal.str t) := by
  rw [lookupAssoc_objAssign_none user "type" huser]
  show lookupAssoc (setKey (setKey
    [("from", MetaVal.prof up), ("type", MetaVal.str t), ("ts", MetaVal.nat ts)]
    "size" sz) "name" nmv) "type" = some (MetaVal.str t)
  rw [lookupAssoc_setKey_ne _ _ _ _ (by decide),
      lookupAssoc_setKey_ne _ _ _ _ (by decide)]
  simp [lookupAssoc]

/-- The `type` field of `addFileData`'s meta, when the caller-supplied meta
carries no `type` key, is the type computed from the source shape and the
provider's returned path. -/
theorem addFileData_type_eq (up : Option UserProfile) (src : FileSource)
    (pH pP : String) (ts : Nat)
    (hmeta : lookupAssoc (src.meta.getD []) "type" = none) :
    lookupAssoc (Orbit.addFileData up src pH pP ts).meta "type" =
      some (MetaVal.str
        (if (if (src.buffer.isSome && strTruthy src.filename) = true then false
             else decide (lastSegment pP ≠ src.expectedName)) = true
         then "directory" else "file")) :=
  lookupAssoc_fileMeta_type up _ ts _ _ _ hmeta

/-- C8 counterexample: a buffer source (filename and buffer both present)
whose caller-supplied meta carries `type: "directory"` produces a Post with
`meta.type = "directory"` — caller meta is merged last and overrides the
computed type, so a buffer source's type is not always `"file"`. -/
def srcBufOverride : FileSource :=
  { filename := some "a.txt", directory := none, buffer := some [104, 105],
    meta := some [("type", MetaVal.str "directory")] }

theorem addFile_meta_override_cex :
    (Orbit.addFile stJoined "c" srcBufOverride "QmB" "a.txt" 5).map
        (fun r => lookupAssoc r.2.meta "type")
      = Except.ok (some (MetaVal.str "directory")) := by
  decide

/-- C8 amended: provided the caller-supplied meta object carries no `type`
key, the Post appended by `addFile` is `addFileData` of the upload result,
and its `meta.type` is `"file"` for a buffer source (buffer and non-empty
filename present) and, for a path source, `"file"` iff the trailing path
segment of the provider's returned entry equals the expected name (the
trailing segment of the supplied directory, or else filename), `"directory"`
otherwise. -/
theorem addFile_meta_type (up : Option UserProfile) (src : FileSource)
    (pH pP : String) (ts : Nat)
    (hmeta : lookupAssoc (src.meta.getD []) "type" = none) :
    (∀ (s : OrbitState) (c : String) (f : Nat) (post : Post),
        Orbit.addFile s c src pH pP ts = Except.ok (f, post) →
        post = Orbit.addFileData s.userProfile src pH pP ts) ∧
    ((src.buffer.isSome && strTruthy src.filename) = true →
        lookupAssoc (Orbit.addFileData up src pH pP ts).meta "type"
          = some (MetaVal.str "file")) ∧
    ((src.buffer.isSome && strTruthy src.filename) = false →
        (lookupAssoc (Orbit.addFileData up src pH pP ts).meta "type"
            = some (MetaVal.str "file") ↔ lastSegment pP = src.expectedName) ∧
        (lastSegment pP ≠ src.expectedName →
          lookupAssoc (Orbit.addFileData up src pH pP ts).meta "type"
            = some (MetaVal.str "directory"))) := by
  refine ⟨?_, ?_, ?_⟩
  · intro s c f post h
    unfold Orbit.addFile at h
    split at h
    · simp at h
    · split at h
      · rename_i r heq
        injection h with h1
        subst h1
        exact postMessage_ok_post _ _ _ _ _ heq
      · simp at h
  · intro hb
    rw [addFileData_type_eq up src pH pP ts hmeta]
    simp [hb]
  · intro hb
    have hty := addFileData_type_eq up src pH pP ts hmeta
    by_cases hpp : lastSegment pP = src.expectedName
    · rw [hty]
      simp [hb, hpp]
    · rw [hty]
      simp [hb, hpp]

/-- A plain buffer source with no caller meta. -/
def srcBufPlain : FileSource :=
  { filename := some "a.txt", directory := none, buffer := some [104, 105],
    meta := none }

/-- C8 witness. -/
theorem addFile_meta_type_witness :
    (∀ (s : OrbitState) (c : String) (f : Nat) (post : Post),
        Orbit.addFile s c srcBufPlain "QmB" "a.txt" 5 = Except.ok (f, post) →
        post = Orbit.addFileData s.userProfile srcBufPlain "QmB" "a.txt" 5) ∧
    ((srcBufPlain.buffer.isSome && strTruthy srcBufPlain.filename) = true →
        lookupAssoc (Orbit.addFileData (some profAlice) srcBufPlain "QmB" "a.txt" 5).meta
            "type" = some (MetaVal.str "file")) ∧
    ((srcBufPlain.buffer.isSome && strTruthy srcBufPlain.filename) = false →
        (lookupAssoc (Orbit.addFileData (some profAlice) srcBufPlain "QmB" "a.txt" 5).meta
            "type" = some (MetaVal.str "file")
          ↔ lastSegment "a.txt" = srcBufPlain.expectedName) ∧
        (lastSegment "a.txt" ≠ srcBufPlain.expectedName →
          lookupAssoc (Orbit.addFileData (some profAlice) srcBufPlain "QmB" "a.txt" 5).meta
            "type" = some (MetaVal.str "directory"))) :=
  addFile_meta_type (some profAlice) srcBufPlain "QmB" "a.txt" 5 (by decide)

/-- Resolving an outstanding open call: explicit form of `fulfillOpen`. -/
theorem fulfillOpen_mem (s : OrbitState) (c : String) (p : Nat) (f : Nat)
    (h : (c, p) ∈ s.openCalls) :
    Orbit.fulfillOpen s c p f =
      { s with channels := setAssoc s.channels c { id := s.nextId, name := c, feed := some f },
               events := s.events ++ [OrbitEvent.joined c { id := s.nextId, name := c, feed := some f }],
               joiningQueue := eraseKey s.joiningQueue c,
               promises := setAssoc s.promises p
                 (PromiseState.fulfilled { id := s.nextId, name := c, feed := some f }),
               openCalls := s.openCalls.filter (fun e => e ≠ (c, p)),
               nextId := s.nextId + 1 } := by
  simp [Orbit.fulfillOpen, h]

/-- Rejecting an outstanding open call: explicit form of `rejectOpen`. -/
theorem rejectOpen_mem (s : OrbitState) (c : String) (p : Nat)
    (h : (c, p) ∈ s.openCalls) :
    Orbit.rejectOpen s c p
      = { s with openCalls := s.openCalls.filter (fun e => e ≠ (c, p)) } := by
  simp [Orbit.rejectOpen, h]

/-- A `connect()` with no username on a Disconnected, non-connecting instance
succeeds and leaves the channel registry, the pending-join queue, the promise
table and the log-open count untouched. -/
theorem connect_undef_success (t : OrbitState)
    (h1 : t.orbitdb = false) (h2 : t.connecting = false) :
    (Orbit.connect t Username.undef true).2 = ConnectResult.ok ∧
    (Orbit.connect t Username.undef true).1.channels = t.channels ∧
    (Orbit.connect t Username.undef true).1.joiningQueue = t.joiningQueue ∧
    (Orbit.connect t Username.undef true).1.promises = t.promises ∧
    (Orbit.connect t Username.undef true).1.openCallCount = t.openCallCount := by
  cases hp : t.pollPeersTimer <;>
    simp [Orbit.connect, Orbit.startPollingForPeers, h1, h2, hp]

/-- C1: from a connected state with no live Channel and no pending
JoinRequest for `c`, issuing `join c` N times concurrently (no provider
answer in between) issues exactly one log-open, hands every caller the same
memoized promise; when the provider answers, exactly one `joined`
notification is emitted, the promise resolves to the registered Channel, and
a further `join c` resolves immediately to that same Channel. -/
theorem join_concurrent_dedup (s : OrbitState) (c : String) (N : Nat) (f : Nat)
    (hc : c ≠ "") (hch : lookupAssoc s.channels c = none)
    (hq : lookupAssoc s.joiningQueue c = none) (hdb : s.orbitdb = true)
    (hN : 1 ≤ N) :
    (Orbit.joinTimes s c N).2 = List.replicate N (JoinOutcome.promise s.nextId) ∧
    (Orbit.joinTimes s c N).1.openCallCount = s.openCallCount + 1 ∧
    (Orbit.fulfillOpen (Orbit.joinTimes s c N).1 c s.nextId f).events
      = s.events ++ [OrbitEvent.joined c { id := s.nextId + 1, name := c, feed := some f }] ∧
    lookupAssoc (Orbit.fulfillOpen (Orbit.joinTimes s c N).1 c s.nextId f).promises s.nextId
      = some (PromiseState.fulfilled { id := s.nextId + 1, name := c, feed := some f }) ∧
    lookupAssoc (Orbit.fulfillOpen (Orbit.joinTimes s c N).1 c s.nextId f).channels c
      = some { id := s.nextId + 1, name := c, feed := some f } ∧
    Orbit.join (Orbit.fulfillOpen (Orbit.joinTimes s c N).1 c s.nextId f) c
      = (Orbit.fulfillOpen (Orbit.joinTimes s c N).1 c s.nextId f,
         JoinOutcome.resolvedExisting { id := s.nextId + 1, name := c, feed := some f }) := by
  obtain ⟨n, rfl⟩ : ∃ n, N = n + 1 := ⟨N - 1, (Nat.succ_pred_eq_of_pos hN).symm⟩
  set s1 : OrbitState :=
    { s with joiningQueue := setAssoc s.joiningQueue c s.nextId,
             promises := setAssoc s.promises s.nextId PromiseState.pending,
             openCalls := s.openCalls ++ [(c, s.nextId)],
             openCallCount := s.openCallCount + 1,
             nextId := s.nextId + 1 } with hs1def
  have h1 : Orbit.join s c = (s1, JoinOutcome.promise s.nextId) := by
    rw [hs1def]; exact join_fresh s c hc hch hq hdb
  have h1p : (Orbit.join s c).1 = s1 := by rw [h1]
  have hch1 : lookupAssoc s1.channels c = none := by rw [hs1def]; exact hch
  have hq1 : lookupAssoc s1.joiningQueue c = some s.nextId := by
    rw [hs1def]; exact lookupAssoc_setAssoc_self _ _ _
  have h2 : Orbit.join s1 c = (s1, JoinOutcome.promise s.nextId) :=
    join_pending s1 c s.nextId hc hch1 hq1
  have h3 := joinTimes_of_stable s1 c s.nextId h2
  have h4a : (Orbit.joinTimes s c (n + 1)).1 = s1 := by
    show (Orbit.joinTimes (Orbit.join s c).1 c n).1 = s1
    rw [h1p, h3 n]
  have h4b : (Orbit.joinTimes s c (n + 1)).2
      = List.replicate (n + 1) (JoinOutcome.promise s.nextId) := by
    show (Orbit.join s c).2 :: (Orbit.joinTimes (Orbit.join s c).1 c n).2 = _
    rw [h1p, h3 n, h1, List.replicate_succ]
  have hm : (c, s.nextId) ∈ s1.openCalls := by rw [hs1def]; simp
  have hff := fulfillOpen_mem s1 c s.nextId f hm
  have hcount : (Orbit.joinTimes s c (n + 1)).1.openCallCount = s.openCallCount + 1 := by
    rw [h4a, hs1def]
  have hev : (Orbit.fulfillOpen (Orbit.joinTimes s c (n + 1)).1 c s.nextId f).events
      = s.events ++ [OrbitEvent.joined c { id := s.nextId + 1, name := c, feed := some f }] := by
    rw [h4a, hff, hs1def]
  have hprom : lookupAssoc
      (Orbit.fulfillOpen (Orbit.joinTimes s c (n + 1)).1 c s.nextId f).promises s.nextId
      = some (PromiseState.fulfilled { id := s.nextId + 1, name := c, feed := some f }) := by
    rw [h4a, hff, hs1def]
    exact lookupAssoc_setAssoc_self _ _ _
  have hchan : lookupAssoc
      (Orbit.fulfillOpen (Orbit.joinTimes s c (n + 1)).1 c s.nextId f).channels c
      = some { id := s.nextId + 1, name := c, feed := some f } := by
    rw [h4a, hff, hs1def]
    exact lookupAssoc_setAssoc_self _ _ _
  exact ⟨h4b, hcount, hev, hprom, hchan, join_existing _ c _ hc hchan⟩

/-- C1 witness: three concurrent joins of `"general"` on a freshly connected
instance. -/
theorem join_concurrent_dedup_witness :
    (Orbit.joinTimes stConn "general" 3).2
      = List.replicate 3 (JoinOutcome.promise stConn.nextId) ∧
    (Orbit.joinTimes stConn "general" 3).1.openCallCount = stConn.openCallCount + 1 ∧
    (Orbit.fulfillOpen (Orbit.joinTimes stConn "general" 3).1 "general" stConn.nextId 9).events
      = stConn.events
        ++ [OrbitEvent.joined "general" { id := stConn.nextId + 1, name := "general", feed := some 9 }] ∧
    lookupAssoc (Orbit.fulfillOpen (Orbit.joinTimes stConn "general" 3).1 "general"
        stConn.nextId 9).promises stConn.nextId
      = some (PromiseState.fulfilled { id := stConn.nextId + 1, name := "general", feed := some 9 }) ∧
    lookupAssoc (Orbit.fulfillOpen (Orbit.joinTimes stConn "general" 3).1 "general"
        stConn.nextId 9).channels "general"
      = some { id := stConn.nextId + 1, name := "general", feed := some 9 } ∧
    Orbit.join (Orbit.fulfillOpen (Orbit.joinTimes stConn "general" 3).1 "general"
        stConn.nextId 9) "general"
      = (Orbit.fulfillOpen (Orbit.joinTimes stConn "general" 3).1 "general" stConn.nextId 9,
         JoinOutcome.resolvedExisting { id := stConn.nextId + 1, name := "general", feed := some 9 }) :=
  join_concurrent_dedup stConn "general" 3 9 (by decide) (by decide) (by decide)
    (by decide) (by decide)

/-- C3 counterexample: after the provider rejects the log-open for
`"general"`, the JoinRequest entry is still pending in the queue and the
memoized promise is still pending — the failure did not complete the waiting
callers and the entry was not cleared. -/
theorem join_open_failure_cex :
    lookupAssoc (Orbit.rejectOpen (Orbit.join stConn "general").1 "general" 1).joiningQueue
      "general" = some 1 ∧
    lookupAssoc (Orbit.rejectOpen (Orbit.join stConn "general").1 "general" 1).promises 1
      = some PromiseState.pending := by
  decide

/-- C3 amended: when the provider's open-log rejects, the rejection is
unhandled (`.then` has no failure handler): the memoized promise stays
pending forever, the JoinRequest for `c` is NOT cleared, and every later
`join c` returns the same stuck promise without issuing a new log-open. -/
theorem join_open_failure_stuck (s : OrbitState) (c : String)
    (hc : c ≠ "") (hch : lookupAssoc s.channels c = none)
    (hq : lookupAssoc s.joiningQueue c = none) (hdb : s.orbitdb = true) :
    lookupAssoc (Orbit.rejectOpen (Orbit.join s c).1 c s.nextId).joiningQueue c
      = some s.nextId ∧
    lookupAssoc (Orbit.rejectOpen (Orbit.join s c).1 c s.nextId).promises s.nextId
      = some PromiseState.pending ∧
    Orbit.join (Orbit.rejectOpen (Orbit.join s c).1 c s.nextId) c
      = (Orbit.rejectOpen (Orbit.join s c).1 c s.nextId, JoinOutcome.promise s.nextId) ∧
    (Orbit.rejectOpen (Orbit.join s c).1 c s.nextId).openCallCount = s.openCallCount + 1 := by
  set s1 : OrbitState :=
    { s with joiningQueue := setAssoc s.joiningQueue c s.nextId,
             promises := setAssoc s.promises s.nextId PromiseState.pending,
             openCalls := s.openCalls ++ [(c, s.nextId)],
             openCallCount := s.openCallCount + 1,
             nextId := s.nextId + 1 } with hs1def
  have h1 : Orbit.join s c = (s1, JoinOutcome.promise s.nextId) := by
    rw [hs1def]; exact join_fresh s c hc hch hq hdb
  have h1p : (Orbit.join s c).1 = s1 := by rw [h1]
  have hm : (c, s.nextId) ∈ s1.openCalls := by rw [hs1def]; simp
  have hr := rejectOpen_mem s1 c s.nextId hm
  have hA : lookupAssoc (Orbit.rejectOpen (Orbit.join s c).1 c s.nextId).joiningQueue c
      = some s.nextId := by
    rw [h1p, hr, hs1def]
    exact lookupAssoc_setAssoc_self _ _ _
  have hB : lookupAssoc (Orbit.rejectOpen (Orbit.join s c).1 c s.nextId).promises s.nextId
      = some PromiseState.pending := by
    rw [h1p, hr, hs1def]
    exact lookupAssoc_setAssoc_self _ _ _
  have hC : lookupAssoc (Orbit.rejectOpen (Orbit.join s c).1 c s.nextId).channels c
      = none := by
    rw [h1p, hr, hs1def]
    exact hch
  refine ⟨hA, hB, join_pending _ c _ hc hC hA, ?_⟩
  rw [h1p, hr, hs1def]

/-- C3 witness for the amended statement. -/
theorem join_open_failure_stuck_witness :
    lookupAssoc (Orbit.rejectOpen (Orbit.join stConn "general").1 "general"
        stConn.nextId).joiningQueue "general" = some stConn.nextId ∧
    lookupAssoc (Orbit.rejectOpen (Orbit.join stConn "general").1 "general"
        stConn.nextId).promises stConn.nextId = some PromiseState.pending ∧
    Orbit.join (Orbit.rejectOpen (Orbit.join stConn "general").1 "general" stConn.nextId)
        "general"
      = (Orbit.rejectOpen (Orbit.join stConn "general").1 "general" stConn.nextId,
         JoinOutcome.promise stConn.nextId) ∧
    (Orbit.rejectOpen (Orbit.join stConn "general").1 "general" stConn.nextId).openCallCount
      = stConn.openCallCount + 1 :=
  join_open_failure_stuck stConn "general" (by decide) (by decide) (by decide) (by decide)

/-- C10: a `join c` issued while disconnected fails (the memoized promise is
born rejected by the TypeError), no log-open is attempted, the poisoned
entry is never removed — `disconnect` never touches the pending-join table,
and after a later successful `connect` a new `join c` still returns the same
cached rejected promise without attempting a log-open. -/
theorem join_disconnected_poisons (s : OrbitState) (c : String)
    (hc : c ≠ "") (hch : lookupAssoc s.channels c = none)
    (hq : lookupAssoc s.joiningQueue c = none)
    (hdb : s.orbitdb = false) (hcn : s.connecting = false) :
    (Orbit.join s c).2 = JoinOutcome.promise s.nextId ∧
    lookupAssoc (Orbit.join s c).1.promises s.nextId = some PromiseState.rejectedTypeError ∧
    (Orbit.join s c).1.openCallCount = s.openCallCount ∧
    (∀ t : OrbitState, (Orbit.disconnect t).joiningQueue = t.joiningQueue) ∧
    (Orbit.connect (Orbit.join s c).1 Username.undef true).2 = ConnectResult.ok ∧
    Orbit.join (Orbit.connect (Orbit.join s c).1 Username.undef true).1 c
      = ((Orbit.connect (Orbit.join s c).1 Username.undef true).1,
         JoinOutcome.promise s.nextId) ∧
    lookupAssoc (Orbit.connect (Orbit.join s c).1 Username.undef true).1.promises s.nextId
      = some PromiseState.rejectedTypeError ∧
    (Orbit.connect (Orbit.join s c).1 Username.undef true).1.openCallCount
      = s.openCallCount := by
  set s1 : OrbitState :=
    { s with joiningQueue := setAssoc s.joiningQueue c s.nextId,
             promises := setAssoc s.promises s.nextId PromiseState.rejectedTypeError,
             nextId := s.nextId + 1 } with hs1def
  have h1 : Orbit.join s c = (s1, JoinOutcome.promise s.nextId) := by
    rw [hs1def]; exact join_fresh_disconnected s c hc hch hq hdb
  have h1p : (Orbit.join s c).1 = s1 := by rw [h1]
  have hdb1 : s1.orbitdb = false := by rw [hs1def]; exact hdb
  have hcn1 : s1.connecting = false := by rw [hs1def]; exact hcn
  have hcu := connect_undef_success s1 hdb1 hcn1
  have hdisc : ∀ t : OrbitState, (Orbit.disconnect t).joiningQueue = t.joiningQueue := by
    intro t
    cases hb : t.orbitdb <;> cases hpt : t.pollPeersTimer <;>
      simp [Orbit.disconnect, hb, hpt]
  have hA : (Orbit.join s c).2 = JoinOutcome.promise s.nextId := by rw [h1]
  have hB : lookupAssoc (Orbit.join s c).1.promises s.nextId
      = some PromiseState.rejectedTypeError := by
    rw [h1p, hs1def]
    exact lookupAssoc_setAssoc_self _ _ _
  have hC : (Orbit.join s c).1.openCallCount = s.openCallCount := by rw [h1p, hs1def]
  have hE : (Orbit.connect (Orbit.join s c).1 Username.undef true).2 = ConnectResult.ok := by
    rw [h1p]; exact hcu.1
  have hch2 : lookupAssoc (Orbit.connect s1 Username.undef true).1.channels c = none := by
    rw [hcu.2.1, hs1def]
    exact hch
  have hq2 : lookupAssoc (Orbit.connect s1 Username.undef true).1.joiningQueue c
      = some s.nextId := by
    rw [hcu.2.2.1, hs1def]
    exact lookupAssoc_setAssoc_self _ _ _
  have hF : Orbit.join (Orbit.connect (Orbit.join s c).1 Username.undef true).1 c
      = ((Orbit.connect (Orbit.join s c).1 Username.undef true).1,
         JoinOutcome.promise s.nextId) := by
    rw [h1p]
    exact join_pending _ c _ hc hch2 hq2
  have hG : lookupAssoc (Orbit.connect (Orbit.join s c).1 Username.undef
      true).1.promises s.nextId = some PromiseState.rejectedTypeError := by
    rw [h1p, hcu.2.2.2.1, hs1def]
    exact lookupAssoc_setAssoc_self _ _ _
  have hH : (Orbit.connect (Orbit.join s c).1 Username.undef true).1.openCallCount
      = s.openCallCount := by
    rw [h1p, hcu.2.2.2.2, hs1def]
  exact ⟨hA, hB, hC, hdisc, hE, hF, hG, hH⟩

/-- C10 witness: joining `"general"` on a fresh (never connected) instance. -/
theorem join_disconnected_poisons_witness :
    (Orbit.join st0 "general").2 = JoinOutcome.promise st0.nextId ∧
    lookupAssoc (Orbit.join st0 "general").1.promises st0.nextId
      = some PromiseState.rejectedTypeError ∧
    (Orbit.join st0 "general").1.openCallCount = st0.openCallCount ∧
    (∀ t : OrbitState, (Orbit.disconnect t).joiningQueue = t.joiningQueue) ∧
    (Orbit.connect (Orbit.join st0 "general").1 Username.undef true).2 = ConnectResult.ok ∧
    Orbit.join (Orbit.connect (Orbit.join st0 "general").1 Username.undef true).1 "general"
      = ((Orbit.connect (Orbit.join st0 "general").1 Username.undef true).1,
         JoinOutcome.promise st0.nextId) ∧
    lookupAssoc (Orbit.connect (Orbit.join st0 "general").1 Username.undef
        true).1.promises st0.nextId = some PromiseState.rejectedTypeError ∧
    (Orbit.connect (Orbit.join st0 "general").1 Username.undef true).1.openCallCount
      = st0.openCallCount :=
  join_disconnected_poisons st0 "general" (by decide) (by decide) (by decide)
    (by decide) (by decide)

/-- State after the first `connect` from a fresh instance. -/
def stLife1 : OrbitState := (Orbit.connect st0 Username.undef true).1

/-- State after the subsequent `disconnect`. -/
def stLife2 : OrbitState := Orbit.disconnect stLife1

/-- State after the second `connect`. -/
def stLife3 : OrbitState := (Orbit.connect stLife2 Username.undef true).1

/-- C2, evaluated at the failing input `connect(); disconnect(); connect()`:
the first connect schedules the poll interval; disconnect cancels it (so no
`peers` notification can fire — every tick is a no-op), but leaves the stale
`_pollPeersTimer` handle set; the second connect succeeds, yet
`_startPollingForPeers` sees the stale truthy handle and schedules nothing,
so after the reconnect every poll tick is still a no-op and no `peers`
notification can ever be emitted again. -/
theorem poll_not_restarted_after_reconnect :
    stLife1.activeIntervals = [0] ∧
    stLife2.activeIntervals = [] ∧
    stLife2.pollPeersTimer = some 0 ∧
    (Orbit.connect stLife2 Username.undef true).2 = ConnectResult.ok ∧
    stLife3.activeIntervals = [] ∧
    stLife3.pollPeersTimer = some 0 ∧
    (∀ (t : Nat) (swarm : List (Option String)), Orbit.pollTick stLife2 t swarm = stLife2) ∧
    (∀ (t : Nat) (swarm : List (Option String)), Orbit.pollTick stLife3 t swarm = stLife3) := by
  have h2 : stLife2.activeIntervals = [] := by decide
  have h3 : stLife3.activeIntervals = [] := by decide
  refine ⟨by decide, h2, by decide, by decide, h3, by decide, ?_, ?_⟩
  · intro t swarm
    simp [Orbit.pollTick, h2]
  · intro t swarm
    simp [Orbit.pollTick, h3]

end OrbitCore
